import Mathlib

/-!
Shallow embedding of the two service modules of the repository
(`src/services/openAIService.js` and `src/services/openRouterService.js`)
and proofs about the claims of the specification.

JavaScript strings are modelled as Lean `String`, machine integers as `Nat`,
possibly-absent values as `Option`, thrown exceptions as `Except JsError`,
and the external collaborators (OpenAI, OpenRouter, axios URL fetch, the
MySQL pool, the filesystem) as oracle fields of an environment record.
Traces of the side effects a call performs (SQL updates executed, provider
requests issued, files written) are returned explicitly so that claims about
ordering and absence of side effects can be stated.
-/

/-- Thrown JavaScript `Error`: only the `message` field is observed by the
code under study. -/
structure JsError where
  message : String
deriving DecidableEq, Repr

/-- A parameter value handed to `pool.execute`.  JavaScript distinguishes
`undefined` (rejected by the parameter guards) from `null` (a legal SQL
NULL); strings and numbers are the values the services actually bind. -/
inductive SqlParam where
  | undefined
  | null
  | str (s : String)
  | nat (n : Nat)
deriving DecidableEq, Repr

/-- Whether a parameter is the JavaScript `undefined`. -/
def SqlParam.isUndefined : SqlParam → Bool
  | .undefined => true
  | _ => false

/-- JavaScript truthiness of a possibly-absent string: `undefined`, `null`
and the empty string are falsy. -/
def jsTruthyStr : Option String → Bool
  | none => false
  | some s => !(s == "")

/-- JavaScript truthiness of a possibly-absent number: `undefined`, `null`
and `0` are falsy. -/
def jsTruthyNat : Option Nat → Bool
  | none => false
  | some n => !(n == 0)

/-- JavaScript `a || b` for a possibly-absent string `a` (the empty string
is falsy and falls through to the default). -/
def jsOrElse (a : Option String) (dflt : String) : String :=
  match a with
  | none => dflt
  | some s => if s == "" then dflt else s

/-- JavaScript `s.trim()`: strip leading and trailing whitespace. -/
def jsTrim (s : String) : String :=
  String.mk (((s.toList.dropWhile Char.isWhitespace).reverse.dropWhile
    Char.isWhitespace).reverse)

/-- JavaScript `s.substring(0, n)`: the first `n` characters. -/
def jsTake (n : Nat) (s : String) : String :=
  String.mk (s.toList.take n)

/-- Whether `pre` is a prefix of `s`, on character lists. -/
def listIsPrefixOf : List Char → List Char → Bool
  | [], _ => true
  | _ :: _, [] => false
  | a :: as, b :: bs => a == b && listIsPrefixOf as bs

/-- Whether `pat` occurs as a contiguous sublist of `s`. -/
def listContainsSub (pat : List Char) : List Char → Bool
  | [] => pat.isEmpty
  | c :: rest => listIsPrefixOf pat (c :: rest) || listContainsSub pat rest

/-- JavaScript `s.includes(pat)`. -/
def strIncludes (s pat : String) : Bool :=
  listContainsSub pat.toList s.toList

/-- Replace every occurrence of the non-empty pattern `pat` by `rep`, left
to right and non-overlapping, on character lists (fuel-indexed). -/
def replaceAllAux : Nat → List Char → List Char → List Char → List Char
  | 0, _, _, s => s
  | fuel + 1, pat, rep, s =>
    match s with
    | [] => []
    | c :: rest =>
      if !pat.isEmpty && listIsPrefixOf pat (c :: rest) then
        rep ++ replaceAllAux fuel pat rep ((c :: rest).drop pat.length)
      else
        c :: replaceAllAux fuel pat rep rest

/-- JavaScript `s.replace(/pat/g, rep)` for a literal pattern. -/
def jsReplaceAll (s pat rep : String) : String :=
  String.mk (replaceAllAux (s.toList.length + 1) pat.toList rep.toList s.toList)

/-- The base64 alphabet. -/
def base64Table : String :=
  "ABCDEFGHIJKLMNOPQRSTUVWXYZabcdefghijklmnopqrstuvwxyz0123456789+/"

/-- Character of the base64 alphabet at a sextet value. -/
def b64Char (n : Nat) : Char :=
  base64Table.toList.getD n '='

/-- Base64 encoding of a byte list, as performed by
`Buffer.from(bytes).toString(\x27base64\x27)`. -/
def base64Encode : List Nat → String
  | [] => ""
  | [b1] =>
    let x := b1 % 256
    String.mk [b64Char (x / 4), b64Char (x % 4 * 16)] ++ "=="
  | [b1, b2] =>
    let x := b1 % 256 * 256 + b2 % 256
    String.mk [b64Char (x / 1024), b64Char (x / 16 % 64), b64Char (x % 16 * 4)] ++ "="
  | b1 :: b2 :: b3 :: rest =>
    let x := b1 % 256 * 65536 + b2 % 256 * 256 + b3 % 256
    String.mk [b64Char (x / 262144), b64Char (x / 4096 % 64),
               b64Char (x / 64 % 64), b64Char (x % 64)] ++ base64Encode rest

/-- JSON values as produced by `JSON.parse`.  Numbers keep their source
lexeme: no claim depends on numeric semantics. -/
inductive Json where
  | null
  | bool (b : Bool)
  | num (lexeme : String)
  | str (s : String)
  | arr (items : List Json)
  | obj (fields : List (String × Json))

/-- Opening-brace character (written by code point to keep string literals
free of braces). -/
def lbrace : Char := Char.ofNat 123

/-- Closing-brace character. -/
def rbrace : Char := Char.ofNat 125

/-- JSON whitespace. -/
def isJsonWs (c : Char) : Bool :=
  c == ' ' || c == '\t' || c == '\n' || c == '\r'

/-- Skip leading JSON whitespace. -/
def skipJsonWs : List Char → List Char
  | [] => []
  | c :: rest => if isJsonWs c then skipJsonWs rest else c :: rest

/-- Value of a hexadecimal digit, by code point: `0`–`9` are 48–57,
`A`–`F` are 65–70, `a`–`f` are 97–102. -/
def hexDigitVal (c : Char) : Option Nat :=
  let v := c.toNat
  if 48 ≤ v && v ≤ 57 then some (v - 48)
  else if 65 ≤ v && v ≤ 70 then some (v - 55)
  else if 97 ≤ v && v ≤ 102 then some (v - 87)
  else none

/-- Parse the body of a JSON string after the opening quote, handling the
escape sequences of the JSON grammar and rejecting unescaped control
characters (in particular literal newlines), as `JSON.parse` does. -/
def parseStrBody : Nat → List Char → List Char → Option (String × List Char)
  | 0, _, _ => none
  | _ + 1, _, [] => none
  | fuel + 1, acc, c :: rest =>
    if c == '"' then some (String.mk acc.reverse, rest)
    else if c == '\\' then
      match rest with
      | [] => none
      | e :: rest2 =>
        if e == '"' then parseStrBody fuel ('"' :: acc) rest2
        else if e == '\\' then parseStrBody fuel ('\\' :: acc) rest2
        else if e == '/' then parseStrBody fuel ('/' :: acc) rest2
        else if e == 'b' then parseStrBody fuel (Char.ofNat 8 :: acc) rest2
        else if e == 'f' then parseStrBody fuel (Char.ofNat 12 :: acc) rest2
        else if e == 'n' then parseStrBody fuel ('\n' :: acc) rest2
        else if e == 'r' then parseStrBody fuel ('\r' :: acc) rest2
        else if e == 't' then parseStrBody fuel ('\t' :: acc) rest2
        else if e == 'u' then
          match rest2 with
          | h1 :: h2 :: h3 :: h4 :: rest3 =>
            match hexDigitVal h1, hexDigitVal h2, hexDigitVal h3, hexDigitVal h4 with
            | some a, some b, some c2, some d =>
              parseStrBody fuel (Char.ofNat (a * 4096 + b * 256 + c2 * 16 + d) :: acc) rest3
            | _, _, _, _ => none
          | _ => none
        else none
    else if c.toNat < 32 then none
    else parseStrBody fuel (c :: acc) rest

/-- Take a maximal run of decimal digits. -/
def takeDigits : List Char → List Char × List Char
  | [] => ([], [])
  | c :: rest =>
    if c.isDigit then
      let (ds, r) := takeDigits rest
      (c :: ds, r)
    else ([], c :: rest)

/-- Parse the optional fraction part of a JSON number. -/
def parseFracPart : List Char → Option (List Char × List Char)
  | '.' :: rest =>
    let (ds, r) := takeDigits rest
    if ds.isEmpty then none else some ('.' :: ds, r)
  | s => some ([], s)

/-- Parse the optional exponent part of a JSON number. -/
def parseExpPart : List Char → Option (List Char × List Char)
  | [] => some ([], [])
  | e :: rest =>
    if e == 'e' || e == 'E' then
      let (sg, r1) : List Char × List Char :=
        match rest with
        | '+' :: r => (['+'], r)
        | '-' :: r => (['-'], r)
        | _ => ([], rest)
      let (ds, r2) := takeDigits r1
      if ds.isEmpty then none else some (e :: (sg ++ ds), r2)
    else some ([], e :: rest)

/-- Parse a JSON number, returning its lexeme. -/
def parseNumberLex (s : List Char) : Option (String × List Char) :=
  let (sign, s1) : List Char × List Char :=
    match s with
    | '-' :: r => (['-'], r)
    | _ => ([], s)
  match s1 with
  | [] => none
  | c :: rest =>
    if c == '0' then
      match parseFracPart rest with
      | none => none
      | some (fr, r1) =>
        match parseExpPart r1 with
        | none => none
        | some (ex, r2) => some (String.mk (sign ++ ['0'] ++ fr ++ ex), r2)
    else if c.isDigit then
      let (ds, r0) := takeDigits rest
      match parseFracPart r0 with
      | none => none
      | some (fr, r1) =>
        match parseExpPart r1 with
        | none => none
        | some (ex, r2) => some (String.mk (sign ++ (c :: ds) ++ fr ++ ex), r2)
    else none

mutual

/-- Parse one JSON value (fuel-indexed recursive descent, as strict as
`JSON.parse`). -/
def parseJsonValue : Nat → List Char → Option (Json × List Char)
  | 0, _ => none
  | fuel + 1, s =>
    match skipJsonWs s with
    | [] => none
    | c :: rest =>
      if c == '"' then
        match parseStrBody (rest.length + 1) [] rest with
        | some (str, r) => some (.str str, r)
        | none => none
      else if c == lbrace then
        match skipJsonWs rest with
        | d :: r2 =>
          if d == rbrace then some (.obj [], r2)
          else parseJsonFields fuel [] (d :: r2)
        | [] => none
      else if c == '[' then
        match skipJsonWs rest with
        | d :: r2 =>
          if d == ']' then some (.arr [], r2)
          else parseJsonItems fuel [] (d :: r2)
        | [] => none
      else if c == 't' then
        match rest with
        | 'r' :: 'u' :: 'e' :: r => some (.bool true, r)
        | _ => none
      else if c == 'f' then
        match rest with
        | 'a' :: 'l' :: 's' :: 'e' :: r => some (.bool false, r)
        | _ => none
      else if c == 'n' then
        match rest with
        | 'u' :: 'l' :: 'l' :: r => some (.null, r)
        | _ => none
      else if c == '-' || c.isDigit then
        match parseNumberLex (c :: rest) with
        | some (lex, r) => some (.num lex, r)
        | none => none
      else none

/-- Parse the remaining items of a non-empty JSON array. -/
def parseJsonItems : Nat → List Json → List Char → Option (Json × List Char)
  | 0, _, _ => none
  | fuel + 1, acc, s =>
    match parseJsonValue fuel s with
    | none => none
    | some (v, r1) =>
      match skipJsonWs r1 with
      | ',' :: r2 => parseJsonItems fuel (v :: acc) r2
      | ']' :: r2 => some (.arr (v :: acc).reverse, r2)
      | _ => none

/-- Parse the remaining fields of a non-empty JSON object. -/
def parseJsonFields : Nat → List (String × Json) → List Char → Option (Json × List Char)
  | 0, _, _ => none
  | fuel + 1, acc, s =>
    match skipJsonWs s with
    | c :: rest =>
      if c == '"' then
        match parseStrBody (rest.length + 1) [] rest with
        | none => none
        | some (key, r1) =>
          match skipJsonWs r1 with
          | ':' :: r2 =>
            match parseJsonValue fuel r2 with
            | none => none
            | some (v, r3) =>
              match skipJsonWs r3 with
              | ',' :: r4 => parseJsonFields fuel ((key, v) :: acc) r4
              | d :: r4 =>
                if d == rbrace then some (.obj ((key, v) :: acc).reverse, r4)
                else none
              | [] => none
          | _ => none
      else none
    | [] => none

end

/-- Strict JSON parse of a whole string, the model of `JSON.parse`. -/
def jsonParse (s : String) : Except JsError Json :=
  match parseJsonValue (s.toList.length + 1) s.toList with
  | some (v, rest) =>
    if (skipJsonWs rest).isEmpty then .ok v
    else .error ⟨"Unexpected non-whitespace character after JSON data"⟩
  | none => .error ⟨"Unexpected token in JSON"⟩

/-- Field lookup on a parsed JSON value, as JavaScript property access:
absent on non-objects, and the last duplicate key wins. -/
def jsonGetField (j : Json) (k : String) : Option Json :=
  match j with
  | .obj fields => (fields.reverse.find? (fun kv => kv.1 == k)).map (fun kv => kv.2)
  | _ => none

/-- Whether the digits of a JSON number lexeme are all zero (its numeric
value is zero exactly when so). -/
def numLexIsZero (lex : String) : Bool :=
  let mantissa := (lex.toList.takeWhile (fun c => !(c == 'e' || c == 'E'))).filter
    (fun c => c.isDigit)
  mantissa.all (fun c => c == '0')

/-- JavaScript truthiness of a possibly-absent parsed JSON value. -/
def jsTruthyJson : Option Json → Bool
  | none => false
  | some .null => false
  | some (.bool b) => b
  | some (.str s) => !(s == "")
  | some (.num lex) => !numLexIsZero lex
  | some (.arr _) => true
  | some (.obj _) => true

/-!
Embedding of `src/services/openRouterService.js`.
-/

/-- Repair pass of `safeJSONParse` (lines 16–20 of
`openRouterService.js`): newlines and carriage returns become spaces, and
escaped quotes are unescaped, each replacement global. -/
def cleanJsonString (s : String) : String :=
  jsReplaceAll (jsReplaceAll (jsReplaceAll (jsReplaceAll s "\n" " ") "\r" " ")
    "\\\x27" "\x27") "\\\"" "\""

/-- Two-stage JSON parse of `safeJSONParse`: strict parse, then one repair
pass and a single reparse; the second parse error is rethrown. -/
def safeJSONParse (s : String) : Except JsError Json :=
  match jsonParse s with
  | .ok v => .ok v
  | .error _ =>
    match jsonParse (cleanJsonString s) with
    | .ok v => .ok v
    | .error e => .error e

/-- Response of the chat-completion provider, collapsed to the one value
the code reads: `response?.data?.choices?.[0]?.message?.tool_calls?.[0]
?.function?.arguments` (`none` when any link of the chain is absent). -/
structure OpenRouterResponse where
  toolCallArgs : Option String
deriving DecidableEq, Repr

/-- Environment of one `generateIdeas` call: the configured key, the
outcome of the provider request, and the persistence oracle (outcome of
`pool.execute` for the insert, and the id MySQL would assign). -/
structure IdeasEnv where
  orKey : Option String
  orOutcome : Except JsError OpenRouterResponse
  insertFail : Option JsError
  insertId : Nat

/-- Guarded insert execution (lines 100–110 of `openRouterService.js`):
parameters containing `undefined` are rejected before `pool.execute`; the
trace lists the parameter vectors actually executed. -/
def execInsert (insertFail : Option JsError) (insertId : Nat) (params : List SqlParam) :
    List (List SqlParam) × Except JsError Nat :=
  if params.any SqlParam.isUndefined then
    ([], .error ⟨"Invalid query parameter detected"⟩)
  else
    match insertFail with
    | some e => ([params], .error e)
    | none => ([params], .ok insertId)

/-- Idea object returned by `generateIdeas`. -/
structure IdeaOut where
  id : Nat
  titleId : Nat
  summary : Json
  fullPrompt : Json

/-- Conversion of a parsed JSON field to an SQL parameter.  The inserted
fields are strings in every case a claim covers (the code only reaches the
insert after both fields passed the truthiness check, and every claim fixes
them to non-empty strings); a parsed JSON value is never `undefined`, so
non-string values are collapsed to SQL NULL. -/
def jsonToSql : Json → SqlParam
  | .str s => .str s
  | _ => .null

/-- Embedding of `generateIdeas` (lines 31–123 of `openRouterService.js`).
Returns the executed insert parameter vectors and the result; the
`instructions`/`previousIdeas` arguments only shape the prompt text, which
no observed behaviour depends on, and are omitted. -/
def generateIdeas (env : IdeasEnv) (titleId : Option Nat) (titleText : Option String) :
    List (List SqlParam) × Except JsError IdeaOut :=
  if !jsTruthyNat titleId then
    ([], .error ⟨"Title ID is required for idea generation"⟩)
  else if !jsTruthyStr titleText then
    ([], .error ⟨"Title text is required for idea generation"⟩)
  else if !jsTruthyStr env.orKey then
    ([], .error ⟨"OpenRouter API key is missing. Please check your .env file."⟩)
  else
    match env.orOutcome with
    | .error e => ([], .error e)
    | .ok resp =>
      if !jsTruthyStr resp.toolCallArgs then
        ([], .error ⟨"No function arguments returned from OpenRouter."⟩)
      else
        match safeJSONParse (resp.toolCallArgs.getD "") with
        | .error e => ([], .error e)
        | .ok ideaData =>
          if !jsTruthyJson (jsonGetField ideaData "summary") ||
             !jsTruthyJson (jsonGetField ideaData "fullPrompt") then
            ([], .error ⟨"Incomplete idea data received from AI"⟩)
          else
            let n := titleId.getD 0
            let s := (jsonGetField ideaData "summary").getD .null
            let f := (jsonGetField ideaData "fullPrompt").getD .null
            match execInsert env.insertFail env.insertId [.nat n, jsonToSql s, jsonToSql f] with
            | (ins, .error e) => (ins, .error e)
            | (ins, .ok newId) => (ins, .ok ⟨newId, n, s, f⟩)

/-!
Embedding of `src/services/openAIService.js`.
-/

/-- One result item of the image API response
(`response.data.data[i]`). -/
structure ImageItem where
  b64_json : Option String
  url : Option String
deriving DecidableEq, Repr

/-- The `data` array of the image API response body. -/
def ApiResponse := List ImageItem

/-- The axios error observed when a provider request rejects:
`error.message`, `error.response?.status`,
`error.response.data?.error?.message`, the JSON rendering of
`error.response.data`, and whether `error.request` is set. -/
structure AxiosError where
  message : String
  status : Option Nat
  dataErrorMessage : Option String
  dataJson : String
  hasRequest : Bool
deriving DecidableEq, Repr

/-- Error mapping of `makeGenerationRequest`'s catch block (lines 165–202
of `openAIService.js`): the status switch, the no-response branch and the
setup branch. -/
def mapGenerationError (e : AxiosError) : JsError :=
  match e.status with
  | some 401 => ⟨"Invalid OpenAI API key"⟩
  | some 403 => ⟨"OpenAI API access forbidden - check your subscription"⟩
  | some 429 => ⟨"OpenAI API rate limit exceeded"⟩
  | some 400 => ⟨"Invalid request: " ++ jsOrElse e.dataErrorMessage "Bad request"⟩
  | some 500 => ⟨"OpenAI API server error"⟩
  | some s => ⟨"OpenAI API error (" ++ toString s ++ "): " ++
      jsOrElse e.dataErrorMessage e.dataJson⟩
  | none =>
    if e.hasRequest then
      ⟨"No response received from OpenAI API - check your internet connection"⟩
    else
      ⟨"Request setup error: " ++ e.message⟩

/-- Request body posted to `/images/generations`. -/
structure RequestBody where
  model : String
  prompt : String
  quality : Option String
  size : String
  response_format : String
deriving DecidableEq, Repr

/-- Body built by `makeGenerationRequest` (lines 138–144): DALL-E 3, the
trimmed prompt, quality hd. -/
def dalle3Body (prompt : String) : RequestBody :=
  ⟨"dall-e-3", jsTrim prompt, some "hd", "1024x1024", "b64_json"⟩

/-- Body built by `makeDalle2GenerationRequest` (lines 214–219): DALL-E 2
and the trimmed prompt truncated by `substring(0, 1000)`. -/
def dalle2Body (prompt : String) : RequestBody :=
  ⟨"dall-e-2", jsTake 1000 (jsTrim prompt), none, "1024x1024", "b64_json"⟩

/-- Embedding of `makeGenerationRequest`: issues the DALL-E 3 body and maps
a rejection through the status switch. -/
def makeGenerationRequest (outcome : Except AxiosError ApiResponse) (prompt : String) :
    RequestBody × Except JsError ApiResponse :=
  (dalle3Body prompt,
    match outcome with
    | .ok r => .ok r
    | .error e => .error (mapGenerationError e))

/-- Embedding of `makeDalle2GenerationRequest`: issues the DALL-E 2 body
and rethrows a rejection unchanged (no status switch, lines 231–234). -/
def makeDalle2GenerationRequest (outcome : Except AxiosError ApiResponse) (prompt : String) :
    RequestBody × Except JsError ApiResponse :=
  (dalle2Body prompt,
    match outcome with
    | .ok r => .ok r
    | .error e => .error ⟨e.message⟩)

/-- The substring test of the fallback loop (lines 340–344): an error is
ladder-terminal when its message contains one of the three 4xx marker
substrings. -/
def isTerminalError (e : JsError) : Bool :=
  strIncludes e.message "Invalid OpenAI API key" ||
  strIncludes e.message "access forbidden" ||
  strIncludes e.message "Invalid request"

/-- The two tiers of the fallback ladder, in the fixed order of the
`models` array (line 306). -/
inductive Model where
  | dalle3
  | dalle2
deriving DecidableEq, Repr

/-- Environment of one `generateImage` call: configuration, the outcome
each provider tier would give, the URL-download oracle, `Date.now()`, and
the filesystem/database oracles. -/
structure GenEnv where
  apiKey : Option String
  apiKeyValidated : Bool
  dalle3 : Except AxiosError ApiResponse
  dalle2 : Except AxiosError ApiResponse
  fetch : String → Except JsError (List Nat)
  now : Nat
  writeFileFail : Option JsError
  dbFail : String → Option JsError

/-- One tier attempt of the loop body (lines 309–348, `hasReferences`
already folded into the prompt by the caller). -/
def tierRequest (env : GenEnv) (m : Model) (pr : String) :
    RequestBody × Except JsError ApiResponse :=
  match m with
  | .dalle3 => makeGenerationRequest env.dalle3 pr
  | .dalle2 => makeDalle2GenerationRequest env.dalle2 pr

/-- The fallback loop over the remaining tiers, carrying `lastError`: a
tier success breaks with its response; a terminal failure rethrows at once;
any other failure records the error and advances; an exhausted list throws
the recorded error or the generic one (lines 309–354). -/
def ladderRun (env : GenEnv) (pr : String) :
    List Model → Option JsError → List RequestBody × Except JsError ApiResponse
  | [], lastErr => ([], .error (lastErr.getD ⟨"All image generation models failed"⟩))
  | m :: rest, _lastErr =>
    let (req, oc) := tierRequest env m pr
    match oc with
    | .ok resp => ([req], .ok resp)
    | .error e =>
      if isTerminalError e then ([req], .error e)
      else
        let (reqs, res) := ladderRun env pr rest (some e)
        (req :: reqs, res)

/-- The whole ladder over `[dall-e-3, dall-e-2]`. -/
def runLadder (env : GenEnv) (pr : String) : List RequestBody × Except JsError ApiResponse :=
  ladderRun env pr [.dalle3, .dalle2] none

/-- Body of `extractImageData`'s try block (lines 240–267): first item,
truthiness-guarded preference of `b64_json` over `url`, download and
base64-encode in the url case. -/
def extractImageDataCore (resp : ApiResponse) (fetch : String → Except JsError (List Nat)) :
    Except JsError String :=
  match resp.head? with
  | none => .error ⟨"No image data in API response"⟩
  | some item =>
    if jsTruthyStr item.b64_json then .ok (item.b64_json.getD "")
    else if jsTruthyStr item.url then
      match fetch (item.url.getD "") with
      | .ok bytes => .ok (base64Encode bytes)
      | .error e => .error e
    else .error ⟨"No valid image data found in API response"⟩

/-- Embedding of `extractImageData`: every failure of the try block is
caught and replaced by one fixed error (lines 269–273). -/
def extractImageData (resp : ApiResponse) (fetch : String → Except JsError (List Nat)) :
    Except JsError String :=
  match extractImageDataCore resp fetch with
  | .ok s => .ok s
  | .error _ => .error ⟨"Failed to extract image data from API response"⟩

/-- One executed `UPDATE paintings SET ... WHERE idea_id = ?` statement:
the SET fields in order and the key parameter. -/
structure DbUpdate where
  setFields : List (String × SqlParam)
  whereIdeaId : SqlParam
deriving DecidableEq, Repr

/-- Embedding of `updatePaintingStatus` (lines 50–67): builds the field
list with `status` first, rejects any `undefined` parameter before
executing, then executes against the pool oracle.  The first component
lists the statements actually handed to `pool.execute`. -/
def updatePaintingStatus (dbFail : String → Option JsError) (ideaId : SqlParam)
    (status : String) (additionalFields : List (String × SqlParam)) :
    List DbUpdate × Except JsError Unit :=
  let fields := ("status", SqlParam.str status) :: additionalFields
  let values := fields.map (fun kv => kv.2) ++ [ideaId]
  if values.any SqlParam.isUndefined then
    ([], .error ⟨"Invalid query parameter detected"⟩)
  else
    match dbFail status with
    | some e => ([⟨fields, ideaId⟩], .error e)
    | none => ([⟨fields, ideaId⟩], .ok ())

/-- Embedding of `validateInputs` (lines 34–47): idea id truthy, prompt
truthy and non-blank after trim, and the key check behind the
`apiKeyValidated` cache flag. -/
def validateInputs (apiKeyValidated : Bool) (apiKey : Option String)
    (ideaId : Option Nat) (prompt : Option String) : Except JsError Unit :=
  if !jsTruthyNat ideaId then
    .error ⟨"Idea ID is required for image generation"⟩
  else if !jsTruthyStr prompt || (jsTrim (prompt.getD "") == "") then
    .error ⟨"Prompt is required for image generation"⟩
  else if !apiKeyValidated && !jsTruthyStr apiKey then
    .error ⟨"OpenAI API key is missing. Please check your .env file."⟩
  else .ok ()

/-- A reference image argument: only its `id` and `image_data` fields are
read; an absent/null id is `none`. -/
structure RefImage where
  id : Option Nat
  image_data : String
deriving DecidableEq, Repr

/-- JSON rendering of a numeric id array, as `JSON.stringify`. -/
def jsonNatArray (l : List Nat) : String :=
  "[" ++ String.intercalate "," (l.map toString) ++ "]"

/-- Name chosen by `saveImageFile` (line 278):
`painting_` ++ ideaId ++ `_` ++ `Date.now()` ++ `.png`. -/
def imageFileName (n now : Nat) : String :=
  "painting_" ++ toString n ++ "_" ++ toString now ++ ".png"

/-- Result object of a successful `generateImage` (lines 378–382). -/
structure GenResult where
  ideaId : Nat
  imageUrl : String
  status : String
deriving DecidableEq, Repr

/-- Side effects and outcome of one `generateImage` call: the `paintings`
updates handed to the pool in order, the provider requests issued in
order, the image files written (name and base64 content), whether the
`finally` cleanup ran, the temp files still tracked at return, and the
value returned or error thrown. -/
structure GenOutput where
  dbCalls : List DbUpdate
  requests : List RequestBody
  files : List (String × String)
  cleanupRan : Bool
  tempFilesLeft : List String
  result : Except JsError GenResult
deriving Repr

/-- The try block of `generateImage` (lines 298–382), after validation:
mark processing, run the ladder on the possibly-enhanced prompt, extract
the image, write the file, finalize the record.  `generateImage` never
calls `createTempFile`, so the temp tracker stays empty throughout. -/
def generateImagePipeline (env : GenEnv) (n : Nat) (p : String) (references : List RefImage) :
    (List DbUpdate × List RequestBody × List (String × String)) × Except JsError GenResult :=
  let (c1, r1) := updatePaintingStatus env.dbFail (.nat n) "processing" []
  match r1 with
  | .error e => ((c1, [], []), .error e)
  | .ok _ =>
    let hasReferences := !references.isEmpty
    let pr := if hasReferences then p ++ " (inspired by provided reference images)" else p
    let (reqs, lr) := runLadder env pr
    match lr with
    | .error e => ((c1, reqs, []), .error e)
    | .ok resp =>
      match extractImageData resp env.fetch with
      | .error e => ((c1, reqs, []), .error e)
      | .ok imageData =>
        let fileName := imageFileName n env.now
        match env.writeFileFail with
        | some e => ((c1, reqs, []), .error e)
        | none =>
          let files := [(fileName, imageData)]
          let referenceIds := (references.map RefImage.id).filterMap (fun x => x)
          let usedReferenceIdsJSON : SqlParam :=
            if referenceIds.length > 0 then .str (jsonNatArray referenceIds) else .null
          let (c2, r2) := updatePaintingStatus env.dbFail (.nat n) "completed"
            [("image_url", .str ("uploads/" ++ fileName)),
             ("image_data", .str ("data:image/png;base64," ++ imageData)),
             ("used_reference_ids", usedReferenceIdsJSON)]
          match r2 with
          | .error e => ((c1 ++ c2, reqs, files), .error e)
          | .ok _ => ((c1 ++ c2, reqs, files),
              .ok ⟨n, "uploads/" ++ fileName, "completed"⟩)

/-- Embedding of `generateImage` (lines 289–403).  `validateInputs` runs
before the try/catch/finally, so a validation failure returns with no side
effect and without the cleanup; otherwise the pipeline runs, a pipeline
error triggers the best-effort failed-status update (its own failure
swallowed) and is rethrown, and the `finally` cleanup always runs. -/
def generateImage (env : GenEnv) (ideaId : Option Nat) (prompt : Option String)
    (references : List RefImage) : GenOutput :=
  match validateInputs env.apiKeyValidated env.apiKey ideaId prompt with
  | .error e => ⟨[], [], [], false, [], .error e⟩
  | .ok _ =>
    let n := ideaId.getD 0
    let p := prompt.getD ""
    match generateImagePipeline env n p references with
    | ((dbCalls, reqs, files), .ok r) =>
      ⟨dbCalls, reqs, files, true, [], .ok r⟩
    | ((dbCalls, reqs, files), .error e) =>
      let errorMsg := if e.message == "" then "Unknown error" else e.message
      let (c3, _r3) := updatePaintingStatus env.dbFail (.nat n) "failed"
        [("error_message", .str (jsTake 255 errorMsg))]
      ⟨dbCalls ++ c3, reqs, files, true, [], .error e⟩

/-- Result of one `TempFileManager.cleanup()` call (lines 91–105), given
which tracked files still exist and which unlink calls would fail:
`attempted` are the files on which `fs.unlink` was called, `deleted` those
it removed, `swallowed` the per-file errors caught and logged, and
`tracker` the tracked-file list afterwards. -/
structure CleanupResult where
  attempted : List String
  deleted : List String
  swallowed : List String
  tracker : List String
deriving DecidableEq, Repr

/-- Embedding of `TempFileManager.cleanup()`: each tracked file is handled
independently (one promise per file); a file is unlinked when it still
exists, a failing unlink is caught per file, and `this.tempFiles = []` is
assigned unconditionally afterwards. -/
def cleanup (tracked : List String) (existsOnDisk : String → Bool)
    (unlinkFails : String → Bool) : CleanupResult :=
  let attempted := tracked.filter (fun p => existsOnDisk p)
  { attempted := attempted
    deleted := attempted.filter (fun p => !unlinkFails p)
    swallowed := attempted.filter (fun p => unlinkFails p)
    tracker := [] }

lemma listIsPrefixOf_append (p s : List Char) : listIsPrefixOf p (p ++ s) = true := by
  induction p with
  | nil => rfl
  | cons a as ih => simp [listIsPrefixOf, ih]

lemma listContainsSub_of_prefix (p s : List Char) (h : listIsPrefixOf p s = true) :
    listContainsSub p s = true := by
  cases s with
  | nil =>
    cases p with
    | nil => rfl
    | cons a as => simp [listIsPrefixOf] at h
  | cons c rest => simp [listContainsSub, h]

lemma strIncludes_append_right (pre suf : String) : strIncludes (pre ++ suf) pre = true := by
  unfold strIncludes
  have h : (pre ++ suf).toList = pre.toList ++ suf.toList := by
    simp [String.toList]
  rw [h]
  exact listContainsSub_of_prefix _ _ (listIsPrefixOf_append _ _)

lemma string_append_ne_empty (pre x : String) (h : pre ≠ "") : pre ++ x ≠ "" := by
  intro heq
  have hd : (pre ++ x).data = ([] : List Char) := by rw [heq]
  rw [String.data_append] at hd
  rcases List.append_eq_nil.mp hd with ⟨h1, _⟩
  exact h (String.ext h1)

lemma mapGenerationError_message_ne (ae : AxiosError) :
    (mapGenerationError ae).message ≠ "" := by
  unfold mapGenerationError
  split
  · decide
  · decide
  · decide
  · exact string_append_ne_empty _ _ (by decide)
  · decide
  · exact string_append_ne_empty _ _
      (string_append_ne_empty _ _ (string_append_ne_empty _ _ (by decide)))
  · split
    · decide
    · exact string_append_ne_empty _ _ (by decide)

lemma runLadder_primary_ok (env : GenEnv) (pr : String) (resp : ApiResponse)
    (h3 : env.dalle3 = .ok resp) :
    runLadder env pr = ([dalle3Body pr], .ok resp) := by
  simp [runLadder, ladderRun, tierRequest, makeGenerationRequest, h3]

lemma runLadder_terminal (env : GenEnv) (pr : String) (ae : AxiosError)
    (h3 : env.dalle3 = .error ae)
    (ht : isTerminalError (mapGenerationError ae) = true) :
    runLadder env pr = ([dalle3Body pr], .error (mapGenerationError ae)) := by
  simp [runLadder, ladderRun, tierRequest, makeGenerationRequest, h3, ht]

lemma runLadder_advance_ok (env : GenEnv) (pr : String) (ae : AxiosError) (resp : ApiResponse)
    (h3 : env.dalle3 = .error ae)
    (ht : isTerminalError (mapGenerationError ae) = false)
    (h2 : env.dalle2 = .ok resp) :
    runLadder env pr = ([dalle3Body pr, dalle2Body pr], .ok resp) := by
  simp [runLadder, ladderRun, tierRequest, makeGenerationRequest,
    makeDalle2GenerationRequest, h3, ht, h2]

lemma runLadder_advance_error (env : GenEnv) (pr : String) (ae ae2 : AxiosError)
    (h3 : env.dalle3 = .error ae)
    (ht : isTerminalError (mapGenerationError ae) = false)
    (h2 : env.dalle2 = .error ae2) :
    runLadder env pr = ([dalle3Body pr, dalle2Body pr], .error ⟨ae2.message⟩) := by
  simp [runLadder, ladderRun, tierRequest, makeGenerationRequest,
    makeDalle2GenerationRequest, h3, ht, h2]

lemma updatePaintingStatus_processing (env : GenEnv) (n : Nat)
    (hdbp : env.dbFail "processing" = none) :
    updatePaintingStatus env.dbFail (.nat n) "processing" [] =
      ([⟨[("status", .str "processing")], .nat n⟩], .ok ()) := by
  simp [updatePaintingStatus, SqlParam.isUndefined, hdbp]

lemma generateImage_success (env : GenEnv) (ideaId : Option Nat) (prompt : Option String)
    (reqs : List RequestBody) (resp : ApiResponse) (X : String)
    (hv : validateInputs env.apiKeyValidated env.apiKey ideaId prompt = .ok ())
    (hdbp : env.dbFail "processing" = none)
    (hL : runLadder env (prompt.getD "") = (reqs, .ok resp))
    (hex : extractImageData resp env.fetch = .ok X)
    (hwf : env.writeFileFail = none)
    (hdbc : env.dbFail "completed" = none) :
    generateImage env ideaId prompt [] =
      { dbCalls := [⟨[("status", .str "processing")], .nat (ideaId.getD 0)⟩,
          ⟨[("status", .str "completed"),
            ("image_url", .str ("uploads/" ++ imageFileName (ideaId.getD 0) env.now)),
            ("image_data", .str ("data:image/png;base64," ++ X)),
            ("used_reference_ids", .null)], .nat (ideaId.getD 0)⟩],
        requests := reqs,
        files := [(imageFileName (ideaId.getD 0) env.now, X)],
        cleanupRan := true, tempFilesLeft := [],
        result := .ok ⟨ideaId.getD 0, "uploads/" ++ imageFileName (ideaId.getD 0) env.now,
          "completed"⟩ } := by
  simp only [generateImage, hv]
  unfold generateImagePipeline
  rw [updatePaintingStatus_processing env _ hdbp]
  simp only [List.isEmpty_nil, Bool.not_true]
  rw [show (if (false : Bool) = true then (prompt.getD "") ++
      " (inspired by provided reference images)" else prompt.getD "") = prompt.getD ""
    from rfl]
  rw [hL]
  simp [hex, hwf, updatePaintingStatus, SqlParam.isUndefined, hdbc]

lemma generateImage_failure (env : GenEnv) (ideaId : Option Nat) (prompt : Option String)
    (references : List RefImage)
    (tr : List DbUpdate × List RequestBody × List (String × String)) (e : JsError)
    (hv : validateInputs env.apiKeyValidated env.apiKey ideaId prompt = .ok ())
    (hpipe : generateImagePipeline env (ideaId.getD 0) (prompt.getD "") references =
      (tr, .error e))
    (hmsg : e.message ≠ "") :
    generateImage env ideaId prompt references =
      { dbCalls := tr.1 ++ [⟨[("status", .str "failed"),
          ("error_message", .str (jsTake 255 e.message))], .nat (ideaId.getD 0)⟩],
        requests := tr.2.1, files := tr.2.2, cleanupRan := true, tempFilesLeft := [],
        result := .error e } := by
  have hm2 : (e.message == "") = false := by simp [hmsg]
  simp only [generateImage, hv, hpipe]
  simp [updatePaintingStatus, SqlParam.isUndefined, hm2]
  cases h : env.dbFail "failed" <;> simp [h]

lemma generateImage_ladder_error (env : GenEnv) (ideaId : Option Nat) (prompt : Option String)
    (reqs : List RequestBody) (e : JsError)
    (hv : validateInputs env.apiKeyValidated env.apiKey ideaId prompt = .ok ())
    (hdbp : env.dbFail "processing" = none)
    (hL : runLadder env (prompt.getD "") = (reqs, .error e))
    (hmsg : e.message ≠ "") :
    generateImage env ideaId prompt [] =
      { dbCalls := [⟨[("status", .str "processing")], .nat (ideaId.getD 0)⟩,
          ⟨[("status", .str "failed"),
            ("error_message", .str (jsTake 255 e.message))], .nat (ideaId.getD 0)⟩],
        requests := reqs, files := [], cleanupRan := true, tempFilesLeft := [],
        result := .error e } := by
  have hpipe : generateImagePipeline env (ideaId.getD 0) (prompt.getD "") [] =
      (([⟨[("status", .str "processing")], .nat (ideaId.getD 0)⟩], reqs, []), .error e) := by
    unfold generateImagePipeline
    rw [updatePaintingStatus_processing env _ hdbp]
    simp only [List.isEmpty_nil, Bool.not_true]
    rw [show (if (false : Bool) = true then (prompt.getD "") ++
        " (inspired by provided reference images)" else prompt.getD "") = prompt.getD ""
      from rfl]
    rw [hL]
  exact generateImage_failure env ideaId prompt [] _ e hv hpipe hmsg

lemma generateImage_requests_eq_ladder (env : GenEnv) (ideaId : Option Nat)
    (prompt : Option String)
    (hv : validateInputs env.apiKeyValidated env.apiKey ideaId prompt = .ok ())
    (hdbp : env.dbFail "processing" = none) :
    (generateImage env ideaId prompt []).requests = (runLadder env (prompt.getD "")).1 := by
  simp only [generateImage, hv]
  unfold generateImagePipeline
  rw [updatePaintingStatus_processing env _ hdbp]
  simp only [List.isEmpty_nil, Bool.not_true]
  rw [show (if (false : Bool) = true then (prompt.getD "") ++
      " (inspired by provided reference images)" else prompt.getD "") = prompt.getD ""
    from rfl]
  rcases hL : runLadder env (prompt.getD "") with ⟨reqs, lr⟩
  cases lr with
  | error e => simp
  | ok resp =>
    cases hex : extractImageData resp env.fetch with
    | error e => simp [hex]
    | ok X =>
      cases hwf : env.writeFileFail with
      | some e => simp [hex, hwf]
      | none =>
        cases hc : (updatePaintingStatus env.dbFail (.nat (ideaId.getD 0)) "completed"
            [("image_url", .str ("uploads/" ++ imageFileName (ideaId.getD 0) env.now)),
             ("image_data", .str ("data:image/png;base64," ++ X)),
             ("used_reference_ids", .null)]).2 with
        | error e => simp [hex, hwf, hc]
        | ok u => simp [hex, hwf, hc]

lemma validateInputs_missing_ideaId (flag : Bool) (key : Option String)
    (prompt : Option String) :
    validateInputs flag key none prompt =
      .error ⟨"Idea ID is required for image generation"⟩ := by
  simp [validateInputs, jsTruthyNat]

lemma validateInputs_blank_prompt (flag : Bool) (key : Option String) (n : Nat)
    (prompt : Option String) (hn : n ≠ 0) (hp : jsTrim (prompt.getD "") = "") :
    validateInputs flag key (some n) prompt =
      .error ⟨"Prompt is required for image generation"⟩ := by
  have hn2 : (n == 0) = false := by simp [hn]
  cases prompt with
  | none => simp [validateInputs, jsTruthyNat, jsTruthyStr, hn2]
  | some p =>
    simp only [Option.getD_some] at hp
    rcases eq_or_ne p "" with h | h
    · subst h; simp [validateInputs, jsTruthyNat, jsTruthyStr, hn2]
    · simp [validateInputs, jsTruthyNat, jsTruthyStr, hn2, h, hp]

lemma validateInputs_no_key (n : Nat) (p : String) (hn : n ≠ 0) (hp : jsTrim p ≠ "") :
    validateInputs false none (some n) (some p) =
      .error ⟨"OpenAI API key is missing. Please check your .env file."⟩ := by
  have hn2 : (n == 0) = false := by simp [hn]
  have hp2 : (p == "") = false := by
    rcases eq_or_ne p "" with h | h
    · subst h; exact absurd (by rfl) hp
    · simp [h]
  have hp3 : (jsTrim p == "") = false := by simp [hp]
  simp [validateInputs, jsTruthyNat, jsTruthyStr, hn2, hp2, hp3]

lemma validateInputs_ok (key : Option String) (n : Nat) (p : String)
    (hn : n ≠ 0) (hp : jsTrim p ≠ "") (hkey : jsTruthyStr key = true) :
    validateInputs false key (some n) (some p) = .ok () := by
  have hn2 : (n == 0) = false := by simp [hn]
  have hp2 : (p == "") = false := by
    rcases eq_or_ne p "" with h | h
    · subst h; exact absurd (by rfl) hp
    · simp [h]
  have hp3 : (jsTrim p == "") = false := by simp [hp]
  have hps : jsTruthyStr (some p) = true := by simp [jsTruthyStr, hp2]
  simp [validateInputs, jsTruthyNat, hn2, hp2, hp3, hps, hkey]

/-- Claim C1, counterexample.  The claim says every primary-tier 5xx failure
advances the ladder to the secondary tier.  Concretely, a 502 whose provider
error message is the text `Invalid request` maps to the message
`OpenAI API error (502): Invalid request`, which the substring classifier
treats as terminal: the secondary tier is never attempted (one request in the
trace) even though it would have succeeded, and the record ends failed. -/
theorem claim1_counterexample :
    generateImage
      { apiKey := some "k", apiKeyValidated := false,
        dalle3 := .error ⟨"Request failed with status code 502", some 502,
          some "Invalid request", "null", true⟩,
        dalle2 := .ok [⟨some "IMG2", none⟩],
        fetch := fun _ => .ok [], now := 1700,
        writeFileFail := none, dbFail := fun _ => none }
      (some 7) (some "p") [] =
    { dbCalls := [⟨[("status", .str "processing")], .nat 7⟩,
        ⟨[("status", .str "failed"),
          ("error_message", .str "OpenAI API error (502): Invalid request")], .nat 7⟩],
      requests := [⟨"dall-e-3", "p", some "hd", "1024x1024", "b64_json"⟩],
      files := [], cleanupRan := true, tempFilesLeft := [],
      result := .error ⟨"OpenAI API error (502): Invalid request"⟩ } := rfl

/-- Claim C1, amended.  In the fallback ladder over `[dall-e-3, dall-e-2]`,
failures are classified by substring matching on the mapped message: 401, 403
and 400 always map to terminal messages, and 429, 500 and no-response always
map to non-terminal ones.  Whenever the mapped primary-tier error is terminal
the ladder aborts at once — the secondary tier is never attempted, the error
propagates and the record ends failed; whenever it is non-terminal the error
is recorded and the ladder advances: if the secondary tier succeeds its
response is the one used and the record ends completed, and if it also fails
the last recorded error is thrown.  (Other 5xx statuses embed the
provider-supplied text in the mapped message, so they abort exactly when that
text contains one of the three marker substrings.) -/
theorem claim1_fallback_ladder_amended :
    (∀ ae : AxiosError,
      ae.status = some 401 ∨ ae.status = some 403 ∨ ae.status = some 400 →
      isTerminalError (mapGenerationError ae) = true) ∧
    (∀ ae : AxiosError,
      ae.status = some 429 ∨ ae.status = some 500 ∨
        (ae.status = none ∧ ae.hasRequest = true) →
      isTerminalError (mapGenerationError ae) = false) ∧
    (∀ (env : GenEnv) (ideaId : Option Nat) (prompt : Option String) (ae : AxiosError),
      validateInputs env.apiKeyValidated env.apiKey ideaId prompt = .ok () →
      env.dbFail "processing" = none →
      env.dalle3 = .error ae →
      isTerminalError (mapGenerationError ae) = true →
      generateImage env ideaId prompt [] =
        { dbCalls := [⟨[("status", .str "processing")], .nat (ideaId.getD 0)⟩,
            ⟨[("status", .str "failed")] ++
              [("error_message", .str (jsTake 255 (mapGenerationError ae).message))],
              .nat (ideaId.getD 0)⟩],
          requests := [dalle3Body (prompt.getD "")], files := [],
          cleanupRan := true, tempFilesLeft := [],
          result := .error (mapGenerationError ae) }) ∧
    (∀ (env : GenEnv) (ideaId : Option Nat) (prompt : Option String) (ae : AxiosError)
        (X : String),
      validateInputs env.apiKeyValidated env.apiKey ideaId prompt = .ok () →
      env.dbFail "processing" = none →
      env.dalle3 = .error ae →
      isTerminalError (mapGenerationError ae) = false →
      env.dalle2 = .ok [⟨some X, none⟩] → X ≠ "" →
      env.writeFileFail = none → env.dbFail "completed" = none →
      generateImage env ideaId prompt [] =
        { dbCalls := [⟨[("status", .str "processing")], .nat (ideaId.getD 0)⟩,
            ⟨[("status", .str "completed"),
              ("image_url", .str ("uploads/" ++ imageFileName (ideaId.getD 0) env.now)),
              ("image_data", .str ("data:image/png;base64," ++ X)),
              ("used_reference_ids", .null)], .nat (ideaId.getD 0)⟩],
          requests := [dalle3Body (prompt.getD ""), dalle2Body (prompt.getD "")],
          files := [(imageFileName (ideaId.getD 0) env.now, X)],
          cleanupRan := true, tempFilesLeft := [],
          result := .ok ⟨ideaId.getD 0, "uploads/" ++ imageFileName (ideaId.getD 0) env.now,
            "completed"⟩ }) ∧
    (∀ (env : GenEnv) (ideaId : Option Nat) (prompt : Option String) (ae ae2 : AxiosError),
      validateInputs env.apiKeyValidated env.apiKey ideaId prompt = .ok () →
      env.dbFail "processing" = none →
      env.dalle3 = .error ae →
      isTerminalError (mapGenerationError ae) = false →
      env.dalle2 = .error ae2 → ae2.message ≠ "" →
      generateImage env ideaId prompt [] =
        { dbCalls := [⟨[("status", .str "processing")], .nat (ideaId.getD 0)⟩,
            ⟨[("status", .str "failed")] ++
              [("error_message", .str (jsTake 255 ae2.message))], .nat (ideaId.getD 0)⟩],
          requests := [dalle3Body (prompt.getD ""), dalle2Body (prompt.getD "")],
          files := [], cleanupRan := true, tempFilesLeft := [],
          result := .error ⟨ae2.message⟩ }) := by
  refine ⟨?_, ?_, ?_, ?_, ?_⟩
  · intro ae h
    rcases h with h | h | h
    · simp [mapGenerationError, h, isTerminalError]
      decide
    · simp [mapGenerationError, h, isTerminalError]
      decide
    · have hpre : ∀ x : String,
          strIncludes ("Invalid request: " ++ x) "Invalid request" = true := by
        intro x
        have hsplit : ("Invalid request: " ++ x) = "Invalid request" ++ (": " ++ x) := by
          rw [← String.append_assoc]
          rfl
        rw [hsplit]
        exact strIncludes_append_right _ _
      simp [mapGenerationError, h, isTerminalError, hpre]
  · intro ae h
    rcases h with h | h | ⟨h1, h2⟩
    · simp [mapGenerationError, h, isTerminalError]
      decide
    · simp [mapGenerationError, h, isTerminalError]
      decide
    · simp [mapGenerationError, h1, h2, isTerminalError]
      decide
  · intro env ideaId prompt ae hv hdbp h3 hterm
    exact generateImage_ladder_error env ideaId prompt _ _ hv hdbp
      (runLadder_terminal env _ ae h3 hterm) (mapGenerationError_message_ne ae)
  · intro env ideaId prompt ae X hv hdbp h3 hterm h2 hX hwf hdbc
    have hex : extractImageData [⟨some X, none⟩] env.fetch = .ok X := by
      have ht : jsTruthyStr (some X) = true := by simp [jsTruthyStr, hX]
      simp [extractImageData, extractImageDataCore, ht]
    exact generateImage_success env ideaId prompt _ _ X hv hdbp
      (runLadder_advance_ok env _ ae _ h3 hterm h2) hex hwf hdbc
  · intro env ideaId prompt ae ae2 hv hdbp h3 hterm h2 hmsg
    exact generateImage_ladder_error env ideaId prompt _ _ hv hdbp
      (runLadder_advance_error env _ ae ae2 h3 hterm h2) hmsg

/-- Witness for the amended claim C1 at concrete inputs: a 401 is terminal
and aborts before the secondary tier; a 429 is non-terminal, the ladder
advances, and the secondary tier's image completes the record. -/
theorem claim1_fallback_ladder_amended_witness :
    isTerminalError (mapGenerationError ⟨"ax", some 401, none, "null", true⟩) = true ∧
    isTerminalError (mapGenerationError ⟨"ax", some 429, none, "null", true⟩) = false ∧
    generateImage
      { apiKey := some "k", apiKeyValidated := false,
        dalle3 := .error ⟨"ax", some 401, none, "null", true⟩,
        dalle2 := .ok [⟨some "IMG2", none⟩], fetch := fun _ => .ok [],
        now := 9, writeFileFail := none, dbFail := fun _ => none }
      (some 5) (some "p") [] =
      { dbCalls := [⟨[("status", .str "processing")], .nat 5⟩,
          ⟨[("status", .str "failed"),
            ("error_message", .str "Invalid OpenAI API key")], .nat 5⟩],
        requests := [dalle3Body "p"], files := [],
        cleanupRan := true, tempFilesLeft := [],
        result := .error ⟨"Invalid OpenAI API key"⟩ } ∧
    generateImage
      { apiKey := some "k", apiKeyValidated := false,
        dalle3 := .error ⟨"ax", some 429, none, "null", true⟩,
        dalle2 := .ok [⟨some "IMG2", none⟩], fetch := fun _ => .ok [],
        now := 9, writeFileFail := none, dbFail := fun _ => none }
      (some 5) (some "p") [] =
      { dbCalls := [⟨[("status", .str "processing")], .nat 5⟩,
          ⟨[("status", .str "completed"),
            ("image_url", .str "uploads/painting_5_9.png"),
            ("image_data", .str "data:image/png;base64,IMG2"),
            ("used_reference_ids", .null)], .nat 5⟩],
        requests := [dalle3Body "p", dalle2Body "p"],
        files := [("painting_5_9.png", "IMG2")],
        cleanupRan := true, tempFilesLeft := [],
        result := .ok ⟨5, "uploads/painting_5_9.png", "completed"⟩ } :=
  by
  refine ⟨?_, ?_, ?_, ?_⟩
  · exact claim1_fallback_ladder_amended.1 ⟨"ax", some 401, none, "null", true⟩ (Or.inl rfl)
  · exact claim1_fallback_ladder_amended.2.1 ⟨"ax", some 429, none, "null", true⟩ (Or.inl rfl)
  · exact claim1_fallback_ladder_amended.2.2.1
      { apiKey := some "k", apiKeyValidated := false,
        dalle3 := .error ⟨"ax", some 401, none, "null", true⟩,
        dalle2 := .ok [⟨some "IMG2", none⟩], fetch := fun _ => .ok [],
        now := 9, writeFileFail := none, dbFail := fun _ => none }
      (some 5) (some "p") ⟨"ax", some 401, none, "null", true⟩ rfl rfl rfl (by decide)
  · exact claim1_fallback_ladder_amended.2.2.2.1
      { apiKey := some "k", apiKeyValidated := false,
        dalle3 := .error ⟨"ax", some 429, none, "null", true⟩,
        dalle2 := .ok [⟨some "IMG2", none⟩], fetch := fun _ => .ok [],
        now := 9, writeFileFail := none, dbFail := fun _ => none }
      (some 5) (some "p") ⟨"ax", some 429, none, "null", true⟩ "IMG2" rfl rfl rfl
      (by decide) rfl (by decide) rfl rfl

/-- Claim C2.  Every successful `generateImage(ideaId, prompt, [])` call
against a provider stub returning inline base64 `X` updates the painting row
keyed on the idea id first to `processing` and then to `completed` with
`image_url = uploads/<generated-name>.png` (the name of the file written
under the uploads directory), `image_data = data:image/png;base64,<X>`, and
`used_reference_ids` NULL, and returns
`(ideaId, uploads/<name>.png, completed)`. -/
theorem claim2_success_scenario :
    ∀ (n now : Nat) (p X key : String) (d2 : Except AxiosError ApiResponse)
      (fetch : String → Except JsError (List Nat)),
    n ≠ 0 → jsTrim p ≠ "" → X ≠ "" → key ≠ "" →
    generateImage
      { apiKey := some key, apiKeyValidated := false,
        dalle3 := .ok [⟨some X, none⟩], dalle2 := d2, fetch := fetch,
        now := now, writeFileFail := none, dbFail := fun _ => none }
      (some n) (some p) [] =
    { dbCalls := [⟨[("status", .str "processing")], .nat n⟩,
        ⟨[("status", .str "completed"),
          ("image_url", .str ("uploads/" ++ imageFileName n now)),
          ("image_data", .str ("data:image/png;base64," ++ X)),
          ("used_reference_ids", .null)], .nat n⟩],
      requests := [dalle3Body p],
      files := [(imageFileName n now, X)],
      cleanupRan := true, tempFilesLeft := [],
      result := .ok ⟨n, "uploads/" ++ imageFileName n now, "completed"⟩ } := by
  intro n now p X key d2 fetch hn hp hX hkey
  have hkey2 : jsTruthyStr (some key) = true := by simp [jsTruthyStr, hkey]
  have hex : extractImageData [⟨some X, none⟩] fetch = .ok X := by
    have ht : jsTruthyStr (some X) = true := by simp [jsTruthyStr, hX]
    simp [extractImageData, extractImageDataCore, ht]
  exact generateImage_success _ (some n) (some p) _ _ X
    (validateInputs_ok (some key) n p hn hp hkey2) rfl
    (runLadder_primary_ok _ _ _ rfl) hex rfl rfl

/-- Witness for claim C2: the concrete scenario of the specification,
`generateImage(42, a red barn at sunset, [])`. -/
theorem claim2_success_scenario_witness :
    generateImage
      { apiKey := some "key", apiKeyValidated := false,
        dalle3 := .ok [⟨some "XBYTES", none⟩], dalle2 := .ok [],
        fetch := fun _ => .ok [], now := 1700, writeFileFail := none,
        dbFail := fun _ => none }
      (some 42) (some "a red barn at sunset") [] =
    { dbCalls := [⟨[("status", .str "processing")], .nat 42⟩,
        ⟨[("status", .str "completed"),
          ("image_url", .str "uploads/painting_42_1700.png"),
          ("image_data", .str "data:image/png;base64,XBYTES"),
          ("used_reference_ids", .null)], .nat 42⟩],
      requests := [dalle3Body "a red barn at sunset"],
      files := [("painting_42_1700.png", "XBYTES")],
      cleanupRan := true, tempFilesLeft := [],
      result := .ok ⟨42, "uploads/painting_42_1700.png", "completed"⟩ } :=
  claim2_success_scenario 42 1700 "a red barn at sunset" "XBYTES" "key" (.ok [])
    (fun _ => .ok []) (by decide) (by decide) (by decide) (by decide)

/-- Claim C3.  For every exception with a non-empty message thrown from the
pipeline after input validation, `generateImage` attempts a `failed` update
whose `error_message` is the original message truncated to 255 characters,
and re-raises the original error; a failure of that update itself (any
`dbFail "failed"` oracle) is swallowed and changes neither the attempt trace
nor the error returned. -/
theorem claim3_failure_update_and_rethrow :
    ∀ (env : GenEnv) (ideaId : Option Nat) (prompt : Option String)
      (references : List RefImage)
      (tr : List DbUpdate × List RequestBody × List (String × String)) (e : JsError),
    validateInputs env.apiKeyValidated env.apiKey ideaId prompt = .ok () →
    generateImagePipeline env (ideaId.getD 0) (prompt.getD "") references =
      (tr, .error e) →
    e.message ≠ "" →
    generateImage env ideaId prompt references =
      { dbCalls := tr.1 ++ [⟨[("status", .str "failed"),
          ("error_message", .str (jsTake 255 e.message))], .nat (ideaId.getD 0)⟩],
        requests := tr.2.1, files := tr.2.2, cleanupRan := true, tempFilesLeft := [],
        result := .error e } :=
  fun env ideaId prompt references tr e hv hpipe hmsg =>
    generateImage_failure env ideaId prompt references tr e hv hpipe hmsg

/-- Witness for claim C3: a 401 pipeline failure with a database that fails
the `failed` update; the failed update is still attempted and the original
error is re-raised. -/
theorem claim3_failure_update_and_rethrow_witness :
    generateImage
      { apiKey := some "k", apiKeyValidated := false,
        dalle3 := .error ⟨"ax", some 401, none, "null", true⟩,
        dalle2 := .ok [], fetch := fun _ => .ok [],
        now := 3, writeFileFail := none,
        dbFail := fun st => if st == "failed" then some ⟨"db down"⟩ else none }
      (some 8) (some "p") [] =
      { dbCalls := [⟨[("status", .str "processing")], .nat 8⟩,
          ⟨[("status", .str "failed"),
            ("error_message", .str (jsTake 255 (⟨"Invalid OpenAI API key"⟩ : JsError).message))],
          .nat 8⟩],
        requests := [dalle3Body "p"], files := [], cleanupRan := true, tempFilesLeft := [],
        result := .error ⟨"Invalid OpenAI API key"⟩ } :=
  claim3_failure_update_and_rethrow
    { apiKey := some "k", apiKeyValidated := false,
      dalle3 := .error ⟨"ax", some 401, none, "null", true⟩,
      dalle2 := .ok [], fetch := fun _ => .ok [],
      now := 3, writeFileFail := none,
      dbFail := fun st => if st == "failed" then some ⟨"db down"⟩ else none }
    (some 8) (some "p") []
    ([⟨[("status", .str "processing")], .nat 8⟩], [dalle3Body "p"], [])
    ⟨"Invalid OpenAI API key"⟩ rfl rfl (by decide)

/-- Claim C4, counterexample.  The claim says `generateImage` runs cleanup
on every exit path (success or any failure).  `validateInputs` runs before
the try/finally, so the call with a missing idea id exits through a failure
path on which the cleanup never runs (`cleanupRan = false`). -/
theorem claim4_counterexample :
    generateImage
      { apiKey := some "k", apiKeyValidated := false,
        dalle3 := .ok [⟨some "X", none⟩], dalle2 := .ok [],
        fetch := fun _ => .ok [], now := 3, writeFileFail := none,
        dbFail := fun _ => none }
      none (some "p") [] =
      { dbCalls := [], requests := [], files := [], cleanupRan := false,
        tempFilesLeft := [],
        result := .error ⟨"Idea ID is required for image generation"⟩ } := rfl

/-- Claim C4, amended.  `TempFileManager.cleanup()` attempts deletion of
every tracked file that still exists — independently per file, so one failing
deletion never prevents another file's deletion — and always leaves the
tracked-file list empty; `generateImage` runs cleanup on every exit path
after input validation, and after any call (including validation failures)
zero temp files created during that call remain tracked. -/
theorem claim4_cleanup_amended :
    (∀ (tracked : List String) (existsOnDisk unlinkFails : String → Bool),
      (cleanup tracked existsOnDisk unlinkFails).tracker = []) ∧
    (∀ (tracked : List String) (existsOnDisk unlinkFails : String → Bool) (p : String),
      p ∈ tracked → existsOnDisk p = true →
      p ∈ (cleanup tracked existsOnDisk unlinkFails).attempted) ∧
    (∀ (tracked : List String) (existsOnDisk unlinkFails : String → Bool) (p : String),
      p ∈ tracked → existsOnDisk p = true → unlinkFails p = false →
      p ∈ (cleanup tracked existsOnDisk unlinkFails).deleted) ∧
    (∀ (env : GenEnv) (ideaId : Option Nat) (prompt : Option String)
        (references : List RefImage),
      validateInputs env.apiKeyValidated env.apiKey ideaId prompt = .ok () →
      (generateImage env ideaId prompt references).cleanupRan = true) ∧
    (∀ (env : GenEnv) (ideaId : Option Nat) (prompt : Option String)
        (references : List RefImage),
      (generateImage env ideaId prompt references).tempFilesLeft = []) := by
  refine ⟨?_, ?_, ?_, ?_, ?_⟩
  · intro tracked ex f
    rfl
  · intro tracked ex f p hmem hex
    simp [cleanup, List.mem_filter, hmem, hex]
  · intro tracked ex f p hmem hex hf
    simp [cleanup, List.mem_filter, hmem, hex, hf]
  · intro env ideaId prompt references hv
    simp only [generateImage, hv]
    rcases hp : generateImagePipeline env (ideaId.getD 0) (prompt.getD "") references
      with ⟨⟨a, b, c⟩, r⟩
    cases r <;> simp
  · intro env ideaId prompt references
    cases hv : validateInputs env.apiKeyValidated env.apiKey ideaId prompt with
    | error e => simp [generateImage, hv]
    | ok u =>
      simp only [generateImage, hv]
      rcases hp : generateImagePipeline env (ideaId.getD 0) (prompt.getD "") references
        with ⟨⟨a, b, c⟩, r⟩
      cases r <;> simp

/-- Witness for the amended claim C4 at concrete inputs: with two tracked
files and the unlink of the first failing, the second is still deleted and
the tracker ends empty; a validated `generateImage` call runs cleanup. -/
theorem claim4_cleanup_amended_witness :
    (cleanup ["a.png", "b.png"] (fun _ => true) (fun q => q == "a.png")).tracker = [] ∧
    "b.png" ∈ (cleanup ["a.png", "b.png"] (fun _ => true) (fun q => q == "a.png")).attempted ∧
    "b.png" ∈ (cleanup ["a.png", "b.png"] (fun _ => true) (fun q => q == "a.png")).deleted ∧
    (generateImage
      { apiKey := some "k", apiKeyValidated := false,
        dalle3 := .ok [⟨some "X", none⟩], dalle2 := .ok [],
        fetch := fun _ => .ok [], now := 3, writeFileFail := none,
        dbFail := fun _ => none }
      (some 2) (some "p") []).cleanupRan = true ∧
    (generateImage
      { apiKey := some "k", apiKeyValidated := false,
        dalle3 := .ok [⟨some "X", none⟩], dalle2 := .ok [],
        fetch := fun _ => .ok [], now := 3, writeFileFail := none,
        dbFail := fun _ => none }
      (some 2) (some "p") []).tempFilesLeft = [] := by
  refine ⟨?_, ?_, ?_, ?_, ?_⟩
  · exact claim4_cleanup_amended.1 ["a.png", "b.png"] _ _
  · exact claim4_cleanup_amended.2.1 ["a.png", "b.png"] _ _ "b.png" (by decide) rfl
  · exact claim4_cleanup_amended.2.2.1 ["a.png", "b.png"] _ _ "b.png" (by decide) rfl rfl
  · exact claim4_cleanup_amended.2.2.2.1 _ (some 2) (some "p") [] rfl
  · exact claim4_cleanup_amended.2.2.2.2 _ (some 2) (some "p") []

/-- Claim C5.  Image-byte extraction prefers the inline base64 payload: a
first result item carrying `b64_json` yields that string unchanged; one
carrying only a `url` yields the base64 encoding of the fetched bytes, and
through `generateImage` the persisted `image_data` is exactly that encoding
(behind the data-URL prefix); an item with neither form, or an empty result
list, fails with an error. -/
theorem claim5_extract_image_data :
    (∀ (item : ImageItem) (rest : List ImageItem)
        (fetch : String → Except JsError (List Nat)) (b : String),
      item.b64_json = some b → b ≠ "" →
      extractImageData (item :: rest) fetch = .ok b) ∧
    (∀ (item : ImageItem) (rest : List ImageItem)
        (fetch : String → Except JsError (List Nat)) (u : String) (bytes : List Nat),
      jsTruthyStr item.b64_json = false → item.url = some u → u ≠ "" →
      fetch u = .ok bytes →
      extractImageData (item :: rest) fetch = .ok (base64Encode bytes)) ∧
    (∀ (item : ImageItem) (rest : List ImageItem)
        (fetch : String → Except JsError (List Nat)),
      jsTruthyStr item.b64_json = false → jsTruthyStr item.url = false →
      extractImageData (item :: rest) fetch =
        .error ⟨"Failed to extract image data from API response"⟩) ∧
    (∀ fetch : String → Except JsError (List Nat),
      extractImageData [] fetch =
        .error ⟨"Failed to extract image data from API response"⟩) ∧
    (∀ (n now : Nat) (p key u : String) (bytes : List Nat)
        (d2 : Except AxiosError ApiResponse),
      n ≠ 0 → jsTrim p ≠ "" → key ≠ "" → u ≠ "" →
      (generateImage
        { apiKey := some key, apiKeyValidated := false,
          dalle3 := .ok [⟨none, some u⟩], dalle2 := d2,
          fetch := fun _ => .ok bytes, now := now,
          writeFileFail := none, dbFail := fun _ => none }
        (some n) (some p) []).dbCalls =
      [⟨[("status", .str "processing")], .nat n⟩,
       ⟨[("status", .str "completed"),
         ("image_url", .str ("uploads/" ++ imageFileName n now)),
         ("image_data", .str ("data:image/png;base64," ++ base64Encode bytes)),
         ("used_reference_ids", .null)], .nat n⟩]) := by
  refine ⟨?_, ?_, ?_, ?_, ?_⟩
  · intro item rest fetch b hb hbne
    have ht : jsTruthyStr (some b) = true := by simp [jsTruthyStr, hbne]
    simp [extractImageData, extractImageDataCore, hb, ht]
  · intro item rest fetch u bytes h1 h2 h3 h4
    have hu : jsTruthyStr (some u) = true := by simp [jsTruthyStr, h3]
    simp [extractImageData, extractImageDataCore, h1, h2, hu, h4]
  · intro item rest fetch h1 h2
    simp [extractImageData, extractImageDataCore, h1, h2]
  · intro fetch
    rfl
  · intro n now p key u bytes d2 hn hp hkey hu
    have hkey2 : jsTruthyStr (some key) = true := by simp [jsTruthyStr, hkey]
    have hex : extractImageData [⟨none, some u⟩] (fun _ => .ok bytes) =
        .ok (base64Encode bytes) := by
      have hu2 : jsTruthyStr (some u) = true := by simp [jsTruthyStr, hu]
      simp [extractImageData, extractImageDataCore, jsTruthyStr, hu2, hu]
    rw [generateImage_success _ (some n) (some p) _ _ (base64Encode bytes)
      (validateInputs_ok (some key) n p hn hp hkey2) rfl
      (runLadder_primary_ok _ _ _ rfl) hex rfl rfl]
    rfl

/-- Witness for claim C5 at concrete items, including a URL-only response
whose fetched bytes are persisted base64-encoded. -/
theorem claim5_extract_image_data_witness :
    extractImageData [⟨some "BB", none⟩] (fun _ => .ok []) = .ok "BB" ∧
    extractImageData [⟨none, some "http:u"⟩] (fun _ => .ok [77, 97, 110]) =
      .ok (base64Encode [77, 97, 110]) ∧
    extractImageData [⟨none, none⟩] (fun _ => .ok []) =
      .error ⟨"Failed to extract image data from API response"⟩ ∧
    extractImageData [] (fun _ => .ok []) =
      .error ⟨"Failed to extract image data from API response"⟩ ∧
    (generateImage
      { apiKey := some "k", apiKeyValidated := false,
        dalle3 := .ok [⟨none, some "http:u"⟩], dalle2 := .ok [],
        fetch := fun _ => .ok [77, 97, 110], now := 5,
        writeFileFail := none, dbFail := fun _ => none }
      (some 3) (some "p") []).dbCalls =
      [⟨[("status", .str "processing")], .nat 3⟩,
       ⟨[("status", .str "completed"),
         ("image_url", .str ("uploads/" ++ imageFileName 3 5)),
         ("image_data", .str ("data:image/png;base64," ++ base64Encode [77, 97, 110])),
         ("used_reference_ids", .null)], .nat 3⟩] := by
  refine ⟨?_, ?_, ?_, ?_, ?_⟩
  · exact claim5_extract_image_data.1 ⟨some "BB", none⟩ [] _ "BB" rfl (by decide)
  · exact claim5_extract_image_data.2.1 ⟨none, some "http:u"⟩ [] _ "http:u" [77, 97, 110]
      rfl rfl (by decide) rfl
  · exact claim5_extract_image_data.2.2.1 ⟨none, none⟩ [] _ rfl rfl
  · exact claim5_extract_image_data.2.2.2.1 _
  · exact claim5_extract_image_data.2.2.2.2 3 5 "p" "k" "http:u" [77, 97, 110] (.ok [])
      (by decide) (by decide) (by decide) (by decide)

/-- Claim C10.  Every failure inside `extractImageData` — no result item,
absence of both payload forms, and any error of the secondary HTTP download —
is caught and replaced by the one fixed error
`Failed to extract image data from API response`; the underlying cause is
never what the caller sees. -/
theorem claim10_extract_error_masking :
    (∀ (resp : ApiResponse) (fetch : String → Except JsError (List Nat)) (e : JsError),
      extractImageData resp fetch = .error e →
      e = ⟨"Failed to extract image data from API response"⟩) ∧
    (∀ fetch : String → Except JsError (List Nat),
      extractImageData [] fetch =
        .error ⟨"Failed to extract image data from API response"⟩) ∧
    (∀ (item : ImageItem) (rest : List ImageItem)
        (fetch : String → Except JsError (List Nat)),
      jsTruthyStr item.b64_json = false → jsTruthyStr item.url = false →
      extractImageData (item :: rest) fetch =
        .error ⟨"Failed to extract image data from API response"⟩) ∧
    (∀ (item : ImageItem) (rest : List ImageItem)
        (fetch : String → Except JsError (List Nat)) (u : String) (err : JsError),
      jsTruthyStr item.b64_json = false → item.url = some u → u ≠ "" →
      fetch u = .error err →
      extractImageData (item :: rest) fetch =
        .error ⟨"Failed to extract image data from API response"⟩) := by
  refine ⟨?_, ?_, ?_, ?_⟩
  · intro resp fetch e h
    unfold extractImageData at h
    cases hc : extractImageDataCore resp fetch with
    | ok v => rw [hc] at h; exact absurd h (by simp)
    | error e2 => rw [hc] at h; simpa using h.symm
  · intro fetch
    rfl
  · intro item rest fetch h1 h2
    simp [extractImageData, extractImageDataCore, h1, h2]
  · intro item rest fetch u err h1 h2 h3 h4
    have hu : jsTruthyStr (some u) = true := by simp [jsTruthyStr, h3]
    simp [extractImageData, extractImageDataCore, h1, h2, hu, h4]

/-- Witness for claim C10 at concrete inputs, including a download failure
(`socket hang up`) that is replaced by the fixed message. -/
theorem claim10_extract_error_masking_witness :
    (⟨"Failed to extract image data from API response"⟩ : JsError) =
      ⟨"Failed to extract image data from API response"⟩ ∧
    extractImageData [] (fun _ => .ok []) =
      .error ⟨"Failed to extract image data from API response"⟩ ∧
    extractImageData [⟨none, none⟩] (fun _ => .ok []) =
      .error ⟨"Failed to extract image data from API response"⟩ ∧
    extractImageData [⟨none, some "http:u"⟩]
        (fun _ => .error ⟨"socket hang up"⟩) =
      .error ⟨"Failed to extract image data from API response"⟩ := by
  refine ⟨?_, ?_, ?_, ?_⟩
  · exact claim10_extract_error_masking.1 [⟨none, none⟩] (fun _ => .ok []) _ rfl
  · exact claim10_extract_error_masking.2.1 _
  · exact claim10_extract_error_masking.2.2.1 ⟨none, none⟩ [] _ rfl rfl
  · exact claim10_extract_error_masking.2.2.2 ⟨none, some "http:u"⟩ [] _ "http:u"
      ⟨"socket hang up"⟩ rfl rfl (by decide) rfl

/-- Claim C6.  For every valid `(titleId, titleText)` where the provider
returns a tool call whose arguments parse to an object with non-empty string
fields `summary` and `fullPrompt`, `generateIdeas` executes exactly one
insert of `(titleId, summary, fullPrompt)` and returns the persistence
layer's assigned id together with the provider's two fields; a missing tool
call / missing arguments, or a parse result missing either required field,
fails with an error and executes no insert. -/
theorem claim6_generate_ideas :
    (∀ (key args : String) (insertId t : Nat) (tt : String) (d : Json) (s f : String),
      t ≠ 0 → tt ≠ "" → key ≠ "" → args ≠ "" →
      safeJSONParse args = .ok d →
      jsonGetField d "summary" = some (.str s) → s ≠ "" →
      jsonGetField d "fullPrompt" = some (.str f) → f ≠ "" →
      generateIdeas ⟨some key, .ok ⟨some args⟩, none, insertId⟩ (some t) (some tt) =
        ([[.nat t, .str s, .str f]], .ok ⟨insertId, t, .str s, .str f⟩)) ∧
    (∀ (env : IdeasEnv) (t : Nat) (tt : String) (args : Option String),
      t ≠ 0 → tt ≠ "" → jsTruthyStr env.orKey = true →
      env.orOutcome = .ok ⟨args⟩ → jsTruthyStr args = false →
      generateIdeas env (some t) (some tt) =
        ([], .error ⟨"No function arguments returned from OpenRouter."⟩)) ∧
    (∀ (env : IdeasEnv) (t : Nat) (tt args : String) (d : Json),
      t ≠ 0 → tt ≠ "" → jsTruthyStr env.orKey = true →
      env.orOutcome = .ok ⟨some args⟩ → args ≠ "" →
      safeJSONParse args = .ok d →
      (jsonGetField d "summary" = none ∨ jsonGetField d "fullPrompt" = none) →
      generateIdeas env (some t) (some tt) =
        ([], .error ⟨"Incomplete idea data received from AI"⟩)) := by
  refine ⟨?_, ?_, ?_⟩
  · intro key args insertId t tt d s f ht htt hkey hargs hparse hs hsne hf hfne
    have htT : jsTruthyNat (some t) = true := by simp [jsTruthyNat, ht]
    have httT : jsTruthyStr (some tt) = true := by simp [jsTruthyStr, htt]
    have hkeyT : jsTruthyStr (some key) = true := by simp [jsTruthyStr, hkey]
    have hargsT : jsTruthyStr (some args) = true := by simp [jsTruthyStr, hargs]
    simp [generateIdeas, htT, httT, hkeyT, hargsT,
      hparse, hs, hf, jsTruthyJson, hsne, hfne, execInsert, jsonToSql,
      SqlParam.isUndefined]
  · intro env t tt args ht htt hkey hresp hargs
    have htT : jsTruthyNat (some t) = true := by simp [jsTruthyNat, ht]
    have httT : jsTruthyStr (some tt) = true := by simp [jsTruthyStr, htt]
    simp [generateIdeas, htT, httT, hkey, hresp, hargs]
  · intro env t tt args d ht htt hkey hresp hargs hparse hmiss
    have htT : jsTruthyNat (some t) = true := by simp [jsTruthyNat, ht]
    have httT : jsTruthyStr (some tt) = true := by simp [jsTruthyStr, htt]
    have hargsT : jsTruthyStr (some args) = true := by simp [jsTruthyStr, hargs]
    rcases hmiss with h | h
    · simp [generateIdeas, htT, httT, hkey, hresp, hargsT, hparse, h, jsTruthyJson]
    · simp [generateIdeas, htT, httT, hkey, hresp, hargsT, hparse, h, jsTruthyJson]

/-- Witness for claim C6: a well-formed tool call is inserted and returned;
a missing tool call and a result missing `fullPrompt` both error with no
insert. -/
theorem claim6_generate_ideas_witness :
    generateIdeas
      ⟨some "k", .ok ⟨some "\x7b\x22summary\x22:\x22s1\x22,\x22fullPrompt\x22:\x22f1\x22\x7d"⟩,
        none, 99⟩ (some 4) (some "Sunset") =
      ([[.nat 4, .str "s1", .str "f1"]], .ok ⟨99, 4, .str "s1", .str "f1"⟩) ∧
    generateIdeas ⟨some "k", .ok ⟨none⟩, none, 99⟩ (some 4) (some "Sunset") =
      ([], .error ⟨"No function arguments returned from OpenRouter."⟩) ∧
    generateIdeas ⟨some "k", .ok ⟨some "\x7b\x22summary\x22:\x22s1\x22\x7d"⟩, none, 99⟩
        (some 4) (some "Sunset") =
      ([], .error ⟨"Incomplete idea data received from AI"⟩) := by
  refine ⟨?_, ?_, ?_⟩
  · exact claim6_generate_ideas.1 "k"
      "\x7b\x22summary\x22:\x22s1\x22,\x22fullPrompt\x22:\x22f1\x22\x7d" 99 4 "Sunset"
      (.obj [("summary", .str "s1"), ("fullPrompt", .str "f1")]) "s1" "f1"
      (by decide) (by decide) (by decide) (by decide) rfl rfl (by decide) rfl (by decide)
  · exact claim6_generate_ideas.2.1 ⟨some "k", .ok ⟨none⟩, none, 99⟩ 4 "Sunset" none
      (by decide) (by decide) rfl rfl rfl
  · exact claim6_generate_ideas.2.2 ⟨some "k", .ok ⟨some "\x7b\x22summary\x22:\x22s1\x22\x7d"⟩,
        none, 99⟩ 4 "Sunset" "\x7b\x22summary\x22:\x22s1\x22\x7d"
      (.obj [("summary", .str "s1")])
      (by decide) (by decide) rfl rfl (by decide) rfl (Or.inr rfl)

/-- Claim C7.  `safeJSONParse` is a two-stage parse: a successful strict
parse is returned as is; otherwise exactly one repair pass
(newlines/carriage returns to spaces, escaped quotes unescaped) is applied
and the string reparsed once, so the arguments string malformed only by an
unescaped literal newline inside a string value still yields both intended
fields; if the repaired parse also fails, that parse error propagates with
no further repair attempts. -/
theorem claim7_safe_json_parse :
    (∀ (str : String) (v : Json), jsonParse str = .ok v → safeJSONParse str = .ok v) ∧
    (∀ (str : String) (e : JsError) (v : Json), jsonParse str = .error e →
      jsonParse (cleanJsonString str) = .ok v → safeJSONParse str = .ok v) ∧
    (∀ (str : String) (e e2 : JsError), jsonParse str = .error e →
      jsonParse (cleanJsonString str) = .error e2 → safeJSONParse str = .error e2) ∧
    (jsonParse "\x7b\x22summary\x22:\x22a\nb\x22,\x22fullPrompt\x22:\x22c\x22\x7d" =
      .error ⟨"Unexpected token in JSON"⟩ ∧
    safeJSONParse "\x7b\x22summary\x22:\x22a\nb\x22,\x22fullPrompt\x22:\x22c\x22\x7d" =
      .ok (.obj [("summary", .str "a b"), ("fullPrompt", .str "c")])) := by
  refine ⟨?_, ?_, ?_, rfl, rfl⟩
  · intro str v h
    simp [safeJSONParse, h]
  · intro str e v h1 h2
    simp [safeJSONParse, h1, h2]
  · intro str e e2 h1 h2
    simp [safeJSONParse, h1, h2]

/-- Witness for claim C7 at concrete strings: a well-formed object, the
literal-newline example, and an unrepairable string. -/
theorem claim7_safe_json_parse_witness :
    safeJSONParse "\x7b\x22k\x22:\x22v\x22\x7d" = .ok (.obj [("k", .str "v")]) ∧
    safeJSONParse "\x7b\x22summary\x22:\x22a\nb\x22,\x22fullPrompt\x22:\x22c\x22\x7d" =
      .ok (.obj [("summary", .str "a b"), ("fullPrompt", .str "c")]) ∧
    safeJSONParse "not json" = .error ⟨"Unexpected token in JSON"⟩ := by
  refine ⟨?_, ?_, ?_⟩
  · exact claim7_safe_json_parse.1 "\x7b\x22k\x22:\x22v\x22\x7d" (.obj [("k", .str "v")]) rfl
  · exact claim7_safe_json_parse.2.1
      "\x7b\x22summary\x22:\x22a\nb\x22,\x22fullPrompt\x22:\x22c\x22\x7d"
      ⟨"Unexpected token in JSON"⟩
      (.obj [("summary", .str "a b"), ("fullPrompt", .str "c")]) rfl rfl
  · exact claim7_safe_json_parse.2.2.1 "not json" ⟨"Unexpected token in JSON"⟩
      ⟨"Unexpected token in JSON"⟩ rfl rfl

/-- Claim C8.  Validation, configuration and parameter errors abort with no
side effects: a missing idea id, a blank prompt, or a missing API key makes
`generateImage` throw with empty traces (no database update, no provider
request, no file write); and a painting update or idea insert whose
parameter list contains `undefined` throws before any statement is
executed. -/
theorem claim8_validation_no_side_effects :
    (∀ (env : GenEnv) (prompt : Option String) (references : List RefImage),
      generateImage env none prompt references =
        { dbCalls := [], requests := [], files := [], cleanupRan := false,
          tempFilesLeft := [],
          result := .error ⟨"Idea ID is required for image generation"⟩ }) ∧
    (∀ (env : GenEnv) (n : Nat) (prompt : Option String) (references : List RefImage),
      n ≠ 0 → jsTrim (prompt.getD "") = "" →
      generateImage env (some n) prompt references =
        { dbCalls := [], requests := [], files := [], cleanupRan := false,
          tempFilesLeft := [],
          result := .error ⟨"Prompt is required for image generation"⟩ }) ∧
    (∀ (env : GenEnv) (n : Nat) (p : String) (references : List RefImage),
      n ≠ 0 → jsTrim p ≠ "" → env.apiKey = none → env.apiKeyValidated = false →
      generateImage env (some n) (some p) references =
        { dbCalls := [], requests := [], files := [], cleanupRan := false,
          tempFilesLeft := [],
          result := .error ⟨"OpenAI API key is missing. Please check your .env file."⟩ }) ∧
    (∀ (dbFail : String → Option JsError) (ideaId : SqlParam) (status : String)
        (additionalFields : List (String × SqlParam)),
      ideaId = .undefined ∨
        (additionalFields.map (fun kv => kv.2)).any SqlParam.isUndefined = true →
      updatePaintingStatus dbFail ideaId status additionalFields =
        ([], .error ⟨"Invalid query parameter detected"⟩)) ∧
    (∀ (insertFail : Option JsError) (insertId : Nat) (params : List SqlParam),
      params.any SqlParam.isUndefined = true →
      execInsert insertFail insertId params =
        ([], .error ⟨"Invalid query parameter detected"⟩)) := by
  refine ⟨?_, ?_, ?_, ?_, ?_⟩
  · intro env prompt references
    simp [generateImage, validateInputs_missing_ideaId]
  · intro env n prompt references hn hp
    simp [generateImage, validateInputs_blank_prompt env.apiKeyValidated env.apiKey n
      prompt hn hp]
  · intro env n p references hn hp hkey hflag
    have hv : validateInputs env.apiKeyValidated env.apiKey (some n) (some p) =
        .error ⟨"OpenAI API key is missing. Please check your .env file."⟩ := by
      rw [hkey, hflag]
      exact validateInputs_no_key n p hn hp
    simp [generateImage, hv]
  · intro dbFail ideaId status additionalFields h
    have hany : ((("status", SqlParam.str status) :: additionalFields).map
        (fun kv => kv.2) ++ [ideaId]).any SqlParam.isUndefined = true := by
      rcases h with h | h
      · simp [h, SqlParam.isUndefined]
      · simp [List.any_append, List.any_cons, h, SqlParam.isUndefined]
    simp only [updatePaintingStatus]
    rw [hany]
    simp
  · intro insertFail insertId params h
    simp [execInsert, h]

/-- Witness for claim C8 at concrete inputs for all five cases. -/
theorem claim8_validation_no_side_effects_witness :
    generateImage
      { apiKey := some "k", apiKeyValidated := false, dalle3 := .ok [],
        dalle2 := .ok [], fetch := fun _ => .ok [], now := 0,
        writeFileFail := none, dbFail := fun _ => none } none (some "p") [] =
      { dbCalls := [], requests := [], files := [], cleanupRan := false,
        tempFilesLeft := [],
        result := .error ⟨"Idea ID is required for image generation"⟩ } ∧
    generateImage
      { apiKey := some "k", apiKeyValidated := false, dalle3 := .ok [],
        dalle2 := .ok [], fetch := fun _ => .ok [], now := 0,
        writeFileFail := none, dbFail := fun _ => none } (some 1) (some "   ") [] =
      { dbCalls := [], requests := [], files := [], cleanupRan := false,
        tempFilesLeft := [],
        result := .error ⟨"Prompt is required for image generation"⟩ } ∧
    generateImage
      { apiKey := none, apiKeyValidated := false, dalle3 := .ok [],
        dalle2 := .ok [], fetch := fun _ => .ok [], now := 0,
        writeFileFail := none, dbFail := fun _ => none } (some 1) (some "p") [] =
      { dbCalls := [], requests := [], files := [], cleanupRan := false,
        tempFilesLeft := [],
        result := .error ⟨"OpenAI API key is missing. Please check your .env file."⟩ } ∧
    updatePaintingStatus (fun _ => none) (.nat 1) "completed"
        [("image_url", .undefined)] =
      ([], .error ⟨"Invalid query parameter detected"⟩) ∧
    execInsert none 7 [.nat 1, .undefined, .str "f"] =
      ([], .error ⟨"Invalid query parameter detected"⟩) := by
  refine ⟨?_, ?_, ?_, ?_, ?_⟩
  · exact claim8_validation_no_side_effects.1 _ (some "p") []
  · exact claim8_validation_no_side_effects.2.1 _ 1 (some "   ") [] (by decide) (by decide)
  · exact claim8_validation_no_side_effects.2.2.1 _ 1 "p" [] (by decide) (by decide) rfl rfl
  · exact claim8_validation_no_side_effects.2.2.2.1 _ (.nat 1) "completed"
      [("image_url", .undefined)] (Or.inr rfl)
  · exact claim8_validation_no_side_effects.2.2.2.2 none 7 [.nat 1, .undefined, .str "f"] rfl

/-- Claim C9.  When the ladder reaches the secondary tier, the DALL-E 2
request carries the trimmed prompt truncated to its first 1000 characters
while the DALL-E 3 request carried the full trimmed prompt; for a trimmed
prompt longer than 1000 characters the secondary tier's prompt is a proper
shortening. -/
theorem claim9_dalle2_prompt_truncation :
    (∀ (env : GenEnv) (ideaId : Option Nat) (prompt : Option String) (ae : AxiosError),
      validateInputs env.apiKeyValidated env.apiKey ideaId prompt = .ok () →
      env.dbFail "processing" = none →
      env.dalle3 = .error ae →
      isTerminalError (mapGenerationError ae) = false →
      (generateImage env ideaId prompt []).requests =
        [⟨"dall-e-3", jsTrim (prompt.getD ""), some "hd", "1024x1024", "b64_json"⟩,
         ⟨"dall-e-2", jsTake 1000 (jsTrim (prompt.getD "")), none, "1024x1024",
           "b64_json"⟩]) ∧
    (∀ p : String, 1000 < (jsTrim p).length → jsTake 1000 (jsTrim p) ≠ jsTrim p) := by
  constructor
  · intro env ideaId prompt ae hv hdbp h3 hterm
    rw [generateImage_requests_eq_ladder env ideaId prompt hv hdbp]
    cases h2 : env.dalle2 with
    | ok resp =>
      rw [runLadder_advance_ok env _ ae resp h3 hterm h2]
      rfl
    | error ae2 =>
      rw [runLadder_advance_error env _ ae ae2 h3 hterm h2]
      rfl
  · intro p hlen heq
    have h1 : (jsTake 1000 (jsTrim p)).length = min 1000 (jsTrim p).length := by
      have h0 : (jsTake 1000 (jsTrim p)).length =
          ((jsTrim p).toList.take 1000).length := rfl
      rw [h0, List.length_take]
      rfl
    rw [heq] at h1
    rw [Nat.min_eq_left (Nat.le_of_lt hlen)] at h1
    omega

set_option maxRecDepth 8192 in
/-- Witness for claim C9: a 429 primary failure leads to both requests with
the expected prompts, and a 1001-character prompt is truncated. -/
theorem claim9_dalle2_prompt_truncation_witness :
    0 < 1 ∧
    (generateImage
      { apiKey := some "k", apiKeyValidated := false,
        dalle3 := .error ⟨"ax", some 429, none, "null", true⟩,
        dalle2 := .ok [⟨some "I", none⟩], fetch := fun _ => .ok [],
        now := 2, writeFileFail := none, dbFail := fun _ => none }
      (some 1) (some " hi ") []).requests =
      [⟨"dall-e-3", jsTrim ((some " hi " : Option String).getD ""), some "hd",
        "1024x1024", "b64_json"⟩,
       ⟨"dall-e-2", jsTake 1000 (jsTrim ((some " hi " : Option String).getD "")), none,
        "1024x1024", "b64_json"⟩] ∧
    jsTake 1000 (jsTrim (String.mk (List.replicate 1001 'a'))) ≠
      jsTrim (String.mk (List.replicate 1001 'a')) := by
  refine ⟨Nat.zero_lt_one, ?_, ?_⟩
  · exact claim9_dalle2_prompt_truncation.1
      { apiKey := some "k", apiKeyValidated := false,
        dalle3 := .error ⟨"ax", some 429, none, "null", true⟩,
        dalle2 := .ok [⟨some "I", none⟩], fetch := fun _ => .ok [],
        now := 2, writeFileFail := none, dbFail := fun _ => none }
      (some 1) (some " hi ") ⟨"ax", some 429, none, "null", true⟩
      rfl rfl rfl (by decide)
  · exact claim9_dalle2_prompt_truncation.2 (String.mk (List.replicate 1001 'a'))
      (by decide)
